import Mathlib

/-!
Shallow embedding of `src/winforms/src/toga_winforms/libs/proactor.py`
(`WinformsProactorEventLoop`), the adapter that drives an asyncio proactor
event loop from the WinForms message loop.

Modelling conventions:
* Python attributes of the loop object, of `self.app`, and the two pieces of
  process-wide state the code touches (`sys` asyncgen hooks and
  `asyncio.events`' running-loop slot) are collected in one record
  `AdapterState`; each field is commented with the attribute it embeds.
* Callbacks are identified by `Nat` ids; the external scheduler-core pass
  `self._run_once()` and the flushed inner-loop callback are opaque
  collaborators, modelled as oracles `AdapterState → Option Exn × AdapterState`
  (the returned state is the state at return or at the point of raising,
  matching Python's no-rollback semantics).
* Python exceptions are the inductive `Exn`; `except BaseException` catches
  every value, while `Exn.isException` marks the `Exception` subclasses
  (KeyboardInterrupt and SystemExit derive only from BaseException).
* Methods that can raise return `Option Exn × AdapterState`; `run_once_recurring`
  additionally returns a trace of `Ev` events so that ordering properties
  (re-arm before inner-loop flush) are stated on the trace.
* The `sys.version_info < (3, 13)` branch of `run_forever` and of
  `winforms_application_exit` is the one embedded: it is the branch whose body
  is present in the source (the other branch delegates to CPython helpers that
  the source comments describe as equivalent).
-/

namespace Proactor

/-- A Python exception value. `runtimeError` carries the message string used by
the CPython `BaseEventLoop` checks; `assertionFailed` is the `AssertionError`
raised by a failed `assert`; `keyboardInterrupt` and `systemExit` are the two
interpreter-control exceptions that derive from `BaseException` but not from
`Exception`; `other` stands for any further exception raised by external code. -/
inductive Exn where
  | runtimeError : String → Exn
  | assertionFailed : Exn
  | keyboardInterrupt : Exn
  | systemExit : Exn
  | other : Nat → Exn
deriving DecidableEq, Repr

/-- Whether the exception is an instance of `Exception` (a Python
`except Exception` clause would catch it). `KeyboardInterrupt` and `SystemExit`
derive directly from `BaseException`, so they are not. -/
def Exn.isException : Exn → Bool
  | .keyboardInterrupt => false
  | .systemExit => false
  | _ => true

/-- Whether an `except BaseException` clause catches the exception: it catches
every Python exception, which is exactly what line 155 of the source relies on. -/
def catchesBaseException (_ : Exn) : Bool := true

/-- The pair of process-wide asyncgen instrumentation hooks manipulated through
`sys.get_asyncgen_hooks` / `sys.set_asyncgen_hooks`; hook functions are
identified by `Nat` ids. -/
structure AgenHooks where
  firstiter : Nat
  finalizer : Nat
deriving DecidableEq, Repr

/-- The slice of the Toga `app` object the adapter reads: its identity and its
`_is_exiting` flag. -/
structure App where
  id : Nat
  isExiting : Bool
deriving DecidableEq, Repr

/-- The combined state the adapter code reads and writes: the
`WinformsProactorEventLoop` instance's own attributes, the snapshot of
`self.app`, and the process-wide interpreter state it touches. -/
structure AdapterState where
  /-- `self._closed` (checked by `_check_closed`). -/
  closed : Bool
  /-- `self._thread_id`; `is_running()` is `self._thread_id is not None`. -/
  thread_id : Option Nat
  /-- `self._stopping`, set by `BaseEventLoop.stop()`. -/
  stopping : Bool
  /-- `self._debug`, fed to `_set_coroutine_origin_tracking`. -/
  debug : Bool
  /-- Whether coroutine-origin tracking is currently enabled
  (`self._set_coroutine_origin_tracking(...)`). -/
  coroutine_tracking : Bool
  /-- `self._old_agen_hooks`, the process hooks saved at startup. -/
  old_agen_hooks : AgenHooks
  /-- `self._inner_loop`: the pending `(callback, args)` pair, or `None`. -/
  inner_loop : Option (Nat × List Nat)
  /-- Identity of the object stored in `self.app` (`None` before startup). -/
  app_ref : Option Nat
  /-- The value of `self.app._is_exiting` read by `run_once_recurring`. -/
  app_is_exiting : Bool
  /-- The loop's ready queue of callbacks (`call_soon` appends to it). -/
  ready : List Nat
  /-- Number of outstanding WinForms delayed tick continuations: each
  `enqueue_tick()` builds a fresh `Action[Task]` handle and schedules it via
  `Task.Delay(5).ContinueWith`, i.e. creates one more pending TickHandle. -/
  tick_count : Nat
  /-- Whether `winforms_application_exit` has been hooked onto
  `WinForms.Application.ApplicationExit`. -/
  exit_registered : Bool
  /-- Identity of this loop object (used for the running-loop slot). -/
  loop_id : Nat
  /-- Process-wide: the current `sys` asyncgen hooks. -/
  agen_hooks : AgenHooks
  /-- Process-wide: `asyncio.events._get_running_loop()`, by loop identity. -/
  running_loop : Option Nat
deriving DecidableEq, Repr

/-- Callback id of the loop's `self._loop_self_reading` bound method. -/
def loopSelfReading : Nat := 0

/-- Hook values installed by `sys.set_asyncgen_hooks(firstiter=self._asyncgen_firstiter_hook,
finalizer=self._asyncgen_finalizer_hook)`: the loop's own bound hook methods,
identified from the loop's identity. -/
def loopHooks (loopId : Nat) : AgenHooks := ⟨loopId + 101, loopId + 102⟩

/-- `BaseEventLoop.is_running()`: `self._thread_id is not None`. -/
def is_running (s : AdapterState) : Bool := s.thread_id.isSome

/-- `BaseEventLoop.stop()`: sets `self._stopping = True`. -/
def stop (s : AdapterState) : AdapterState := { s with stopping := true }

/-- `BaseEventLoop.call_soon(cb)`: `_check_closed()` raises
`RuntimeError('Event loop is closed')` when the loop is closed, before any
mutation; otherwise the callback handle is appended to the ready queue.
(The optional debug-mode thread check is elided: none of the embedded call
sites run it.) -/
def call_soon (cb : Nat) (s : AdapterState) : Option Exn × AdapterState :=
  if s.closed then (some (Exn.runtimeError "Event loop is closed"), s)
  else (none, { s with ready := s.ready ++ [cb] })

/-- `enqueue_tick()` (source lines 85-88): builds a fresh `Action[Task]`
continuation for `self.tick` and schedules it with `Task.Delay(5).ContinueWith`,
creating one more outstanding delayed TickHandle. -/
def enqueue_tick (s : AdapterState) : AdapterState :=
  { s with tick_count := s.tick_count + 1 }

/-- `start_inner_loop(callback, *args)` (source lines 101-103):
`assert self._inner_loop is None` raises `AssertionError` (state untouched) when
a request is already outstanding; otherwise `self._inner_loop = (callback, args)`
is stored and the method returns without invoking the callback (the body
contains no call to `callback`). -/
def start_inner_loop (c : Nat) (args : List Nat) (s : AdapterState) :
    Option Exn × AdapterState :=
  match s.inner_loop with
  | some _ => (some Exn.assertionFailed, s)
  | none => (none, { s with inner_loop := some (c, args) })

/-- `run_forever(app)` (source lines 15-83), up to the point where
`WinForms.Application.Run` blocks; the returned state is the state in which the
host loop starts running (or the state at the point of raising). Step order
follows the source: `call_soon(self._loop_self_reading)`; `self.app = app`;
then the `sys.version_info < (3, 13)` setup block (`_check_closed`,
`is_running` check, running-loop check, coroutine-origin tracking, thread id,
save and replace asyncgen hooks, publish the running loop); then the
ApplicationExit hook, the first `enqueue_tick()`, and `self._inner_loop = None`. -/
def run_forever (tid : Nat) (app : App) (s0 : AdapterState) :
    Option Exn × AdapterState :=
  match call_soon loopSelfReading s0 with
  | (some e, s1) => (some e, s1)
  | (none, s1) =>
    let s2 := { s1 with app_ref := some app.id, app_is_exiting := app.isExiting }
    if s2.closed then (some (Exn.runtimeError "Event loop is closed"), s2)
    else if is_running s2 then
      (some (Exn.runtimeError "This event loop is already running"), s2)
    else if s2.running_loop.isSome then
      (some (Exn.runtimeError
        "Cannot run the event loop while another loop is running"), s2)
    else
      let s3 := { s2 with coroutine_tracking := s2.debug }
      let s4 := { s3 with thread_id := some tid }
      let s5 := { s4 with old_agen_hooks := s4.agen_hooks }
      let s6 := { s5 with agen_hooks := loopHooks s5.loop_id }
      let s7 := { s6 with running_loop := some s6.loop_id }
      let s8 := { s7 with exit_registered := true }
      let s9 := enqueue_tick s8
      (none, { s9 with inner_loop := none })

/-- `winforms_application_exit(app, event)` (source lines 106-126), the
`sys.version_info < (3, 13)` branch: `self._stopping = False`;
`self._thread_id = None`; `events._set_running_loop(None)`;
`self._set_coroutine_origin_tracking(False)`;
`sys.set_asyncgen_hooks(*self._old_agen_hooks)`. -/
def winforms_application_exit (s : AdapterState) : AdapterState :=
  { s with stopping := false
         , thread_id := none
         , running_loop := none
         , coroutine_tracking := false
         , agen_hooks := s.old_agen_hooks }

/-- Trace events recorded while `run_once_recurring` executes. `invokeCb`
carries the full adapter state passed to the flushed callback at the moment of
the call. -/
inductive Ev where
  | stopEv : Ev
  | runOncePass : Ev
  | enqueueTickEv : Ev
  | callSoonEv : Nat → Ev
  | invokeCb : Nat → List Nat → AdapterState → Ev
  | caught : Exn → Ev
deriving DecidableEq, Repr

/-- Behaviour oracle for the external scheduler-core pass `self._run_once()`:
given the state at the call, it returns the state at return together with the
exception it raised, if any. -/
abbrev SchedPass := AdapterState → Option Exn × AdapterState

/-- Behaviour oracle for an external callback invoked as `callback(*args)`. -/
abbrev CbRun := Nat → List Nat → AdapterState → Option Exn × AdapterState

/-- The tail of the `try` body of `run_once_recurring`, from source line 146
(`self.enqueue_tick()`) to line 152 (`callback(*args)`): enqueue the next tick,
`call_soon(self._loop_self_reading)`, then, if `self._inner_loop` is truthy
(it is always a 2-tuple, hence truthy exactly when not `None`), clear it and
invoke the stored callback. This tail is shared by the exiting and the
non-exiting branch, since line 146 sits outside the `else` of line 139. -/
def tick_tail (cbi : CbRun) (s1 : AdapterState) (t1 : List Ev) :
    Option Exn × AdapterState × List Ev :=
  let s2 := enqueue_tick s1
  let t2 := t1 ++ [Ev.enqueueTickEv]
  match call_soon loopSelfReading s2 with
  | (some e, s3) => (some e, s3, t2)
  | (none, s3) =>
    let t3 := t2 ++ [Ev.callSoonEv loopSelfReading]
    match s3.inner_loop with
    | none => (none, s3, t3)
    | some (c, args) =>
      let s4 := { s3 with inner_loop := none }
      let t4 := t3 ++ [Ev.invokeCb c args s4]
      match cbi c args s4 with
      | (e, s5) => (e, s5, t4)

/-- The whole `try` body of `run_once_recurring` (source lines 132-152): if
`self.app._is_exiting` then `self.stop()` else `self._run_once()`; then the
shared tail `tick_tail`. The first component is the exception escaping the
body, if any. -/
def run_once_recurring_try (ro : SchedPass) (cbi : CbRun) (s0 : AdapterState) :
    Option Exn × AdapterState × List Ev :=
  if s0.app_is_exiting then
    tick_tail cbi (stop s0) [Ev.stopEv]
  else
    match ro s0 with
    | (some e, s1) => (some e, s1, [Ev.runOncePass])
    | (none, s1) => tick_tail cbi s1 [Ev.runOncePass]

/-- `run_once_recurring()` (source lines 128-156): the `try` body wrapped in
`except BaseException: traceback.print_exc()`. The printed traceback is
recorded as a `caught` trace event; the first component is the exception that
propagates to the caller, if any. -/
def run_once_recurring (ro : SchedPass) (cbi : CbRun) (s0 : AdapterState) :
    Option Exn × AdapterState × List Ev :=
  match run_once_recurring_try ro cbi s0 with
  | (none, s, t) => (none, s, t)
  | (some e, s, t) =>
    if catchesBaseException e then (none, s, t ++ [Ev.caught e])
    else (some e, s, t)

/-- Trace check for the re-arm-before-flush ordering: scanning left to right
with a flag recording whether `enqueueTickEv` has been seen, every `invokeCb`
event must occur with the flag set. -/
def flushOnlyAfterArm : List Ev → Bool → Bool
  | [], _ => true
  | Ev.enqueueTickEv :: rest, _ => flushOnlyAfterArm rest true
  | Ev.invokeCb _ _ _ :: rest, armed => armed && flushOnlyAfterArm rest armed
  | _ :: rest, armed => flushOnlyAfterArm rest armed

/-- Well-ordered tick trace: the inner-loop flush only happens after the next
tick has been armed, and the state handed to a flushed callback has the pending
request already cleared and at least one tick outstanding. -/
def traceOk (t : List Ev) : Prop :=
  flushOnlyAfterArm t false = true ∧
  ∀ c a sAt, Ev.invokeCb c a sAt ∈ t → sAt.inner_loop = none ∧ 0 < sAt.tick_count

/-- A quiescent adapter state: fresh loop, nothing armed, no request pending. -/
def sPlain : AdapterState :=
  { closed := false, thread_id := none, stopping := false, debug := false
  , coroutine_tracking := false, old_agen_hooks := ⟨10, 11⟩
  , inner_loop := none, app_ref := some 1, app_is_exiting := false
  , ready := [], tick_count := 0, exit_registered := true, loop_id := 1
  , agen_hooks := ⟨10, 11⟩, running_loop := some 1 }

/-- `sPlain` with the application's `_is_exiting` flag set. -/
def sExiting : AdapterState := { sPlain with app_is_exiting := true }

/-- `sPlain` with an inner-loop request already outstanding. -/
def sWithReq : AdapterState := { sPlain with inner_loop := some (5, [2]) }

/-- A not-yet-started loop state (nothing running anywhere). -/
def sFresh : AdapterState :=
  { sPlain with app_ref := none, exit_registered := false, running_loop := none }

/-- `sFresh` with the loop already marked running on thread 7. -/
def sRunning : AdapterState := { sFresh with thread_id := some 7 }

/-- Scheduler-pass oracle that performs no work and returns normally. -/
def roId : SchedPass := fun s => (none, s)

/-- Scheduler-pass oracle whose pass raises an ordinary exception. -/
def roBoom : SchedPass := fun s => (some (Exn.other 7), s)

/-- Scheduler-pass oracle whose pass raises `KeyboardInterrupt`. -/
def roKI : SchedPass := fun s => (some Exn.keyboardInterrupt, s)

/-- Callback oracle that does nothing and returns normally. -/
def cbId : CbRun := fun _ _ s => (none, s)

/-- A sample application object, not exiting. -/
def app0 : App := ⟨1, false⟩

/-- `sPlain` with a different request outstanding (used for a second scenario). -/
def sWithReq2 : AdapterState := { sPlain with inner_loop := some (9, [4]) }

/-- The state at the moment the flushed callback of `sWithReq` is invoked by
`run_once_recurring` with a no-op scheduler pass: the request is cleared, the
next tick is armed, and the self-reading callback is queued. -/
def sFlushed : AdapterState :=
  { sWithReq with inner_loop := none, ready := [loopSelfReading], tick_count := 1 }

/-- The state at the moment the flushed callback of `sWithReq2` is invoked. -/
def sFlushed2 : AdapterState :=
  { sWithReq2 with inner_loop := none, ready := [loopSelfReading], tick_count := 1 }

/-- Appending a swallowed-exception report does not disturb the
armed-before-flush scan. -/
theorem flush_append_caught (t : List Ev) (b : Bool) (e : Exn) :
    flushOnlyAfterArm (t ++ [Ev.caught e]) b = flushOnlyAfterArm t b := by
  induction t generalizing b with
  | nil => simp [flushOnlyAfterArm]
  | cons h rest ih => cases h <;> simp [flushOnlyAfterArm, ih]

/-- `traceOk` is preserved by recording a swallowed exception at the end. -/
theorem traceOk_append_caught (t : List Ev) (e : Exn) (h : traceOk t) :
    traceOk (t ++ [Ev.caught e]) := by
  obtain ⟨h1, h2⟩ := h
  refine ⟨by rw [flush_append_caught]; exact h1, fun c a sAt hm => ?_⟩
  rcases List.mem_append.mp hm with hm | hm
  · exact h2 c a sAt hm
  · simp at hm

/-- Successful `call_soon`: the loop was not closed and the only change is the
appended ready-queue entry. -/
theorem call_soon_ok (cb : Nat) (s s' : AdapterState)
    (h : call_soon cb s = (none, s')) :
    s.closed = false ∧ s' = { s with ready := s.ready ++ [cb] } := by
  by_cases hc : s.closed
  · simp [call_soon, hc] at h
  · simp [call_soon, hc] at h
    simp [hc, h]

/-- Every trace produced by the shared tail of `run_once_recurring` is
well ordered, for either opening event. -/
theorem tick_tail_ok (cbi : CbRun) (s1 : AdapterState) (e0 : Ev)
    (he : e0 = Ev.stopEv ∨ e0 = Ev.runOncePass) :
    traceOk (tick_tail cbi s1 [e0]).2.2 := by
  rcases hcs : call_soon loopSelfReading (enqueue_tick s1) with ⟨oe, s3⟩
  cases oe with
  | some e =>
    have ht : (tick_tail cbi s1 [e0]).2.2 = [e0, Ev.enqueueTickEv] := by
      simp [tick_tail, hcs]
    rw [ht]
    rcases he with he | he <;> subst he <;>
      exact ⟨by simp [flushOnlyAfterArm], by intro c a sAt hm; simp at hm⟩
  | none =>
    obtain ⟨hcl, hs3⟩ := call_soon_ok loopSelfReading (enqueue_tick s1) s3 hcs
    have htc : s3.tick_count = s1.tick_count + 1 := by
      rw [hs3]; simp [enqueue_tick]
    have hil3 : s3.inner_loop = s1.inner_loop := by
      rw [hs3]; simp [enqueue_tick]
    cases hil : s3.inner_loop with
    | none =>
      have ht : (tick_tail cbi s1 [e0]).2.2 =
          [e0, Ev.enqueueTickEv, Ev.callSoonEv loopSelfReading] := by
        simp [tick_tail, hcs, hil]
      rw [ht]
      rcases he with he | he <;> subst he <;>
        exact ⟨by simp [flushOnlyAfterArm], by intro c a sAt hm; simp at hm⟩
    | some p =>
      obtain ⟨c0, a0⟩ := p
      rcases hcb : cbi c0 a0 { s3 with inner_loop := none } with ⟨oe2, s5⟩
      have ht : (tick_tail cbi s1 [e0]).2.2 =
          [e0, Ev.enqueueTickEv, Ev.callSoonEv loopSelfReading,
           Ev.invokeCb c0 a0 { s3 with inner_loop := none }] := by
        simp [tick_tail, hcs, hil, hcb]
      rw [ht]
      refine ⟨?_, ?_⟩
      · rcases he with he | he <;> subst he <;> simp [flushOnlyAfterArm]
      · intro c a sAt hm
        rcases he with he | he <;> subst he <;> simp at hm <;>
          obtain ⟨-, -, hsAt⟩ := hm <;> subst hsAt <;>
            exact ⟨rfl, by simp [htc]⟩

/-- Every trace produced by the `try` body of `run_once_recurring` is
well ordered. -/
theorem run_once_try_trace_ok (ro : SchedPass) (cbi : CbRun) (s : AdapterState) :
    traceOk (run_once_recurring_try ro cbi s).2.2 := by
  by_cases hx : s.app_is_exiting
  · have hTry : run_once_recurring_try ro cbi s =
        tick_tail cbi (stop s) [Ev.stopEv] := by
      simp [run_once_recurring_try, hx]
    rw [hTry]
    exact tick_tail_ok cbi (stop s) Ev.stopEv (Or.inl rfl)
  · rcases hro : ro s with ⟨oe2, s2⟩
    cases oe2 with
    | some e =>
      have hTry : run_once_recurring_try ro cbi s =
          (some e, s2, [Ev.runOncePass]) := by
        simp [run_once_recurring_try, hx, hro]
      rw [hTry]
      exact ⟨by simp [flushOnlyAfterArm], fun c a sAt hm => by simp at hm⟩
    | none =>
      have hTry : run_once_recurring_try ro cbi s =
          tick_tail cbi s2 [Ev.runOncePass] := by
        simp [run_once_recurring_try, hx, hro]
      rw [hTry]
      exact tick_tail_ok cbi s2 Ev.runOncePass (Or.inr rfl)

/-- Every trace produced by `run_once_recurring` is well ordered. -/
theorem run_once_trace_ok (ro : SchedPass) (cbi : CbRun) (s : AdapterState) :
    traceOk (run_once_recurring ro cbi s).2.2 := by
  rcases hT : run_once_recurring_try ro cbi s with ⟨oe, s1, t1⟩
  have hOk : traceOk t1 := by
    have h2 := run_once_try_trace_ok ro cbi s
    rw [hT] at h2
    exact h2
  cases oe with
  | none => simpa [run_once_recurring, hT] using hOk
  | some e =>
    have hr : run_once_recurring ro cbi s = (none, s1, t1 ++ [Ev.caught e]) := by
      simp [run_once_recurring, hT, catchesBaseException]
    rw [hr]
    exact traceOk_append_caught t1 e hOk

/-- C1: evaluating `run_once_recurring` at a state whose application is exiting
shows that the code does stop the scheduler (`stopping` becomes true) but,
contrary to the claim and to the method's own docstring, still arms another
tick: an `enqueueTickEv` is emitted and a new TickHandle is outstanding
(`tick_count` grew by one), because `self.enqueue_tick()` on line 146 sits
outside the `else` of line 139. -/
theorem stop_path_still_arms_tick :
    (run_once_recurring roId cbId sExiting).2.1.stopping = true ∧
    Ev.enqueueTickEv ∈ (run_once_recurring roId cbId sExiting).2.2 ∧
    (run_once_recurring roId cbId sExiting).2.1.tick_count =
      sExiting.tick_count + 1 := by
  decide

/-- C2 counterexample: calling `run_forever` on a loop that is already running
raises the AlreadyRunning `RuntimeError`, but the state after the call differs
from the state before it (the ready queue gained the self-reading callback and
`self.app` was stored), refuting "leaving all adapter and scheduler state
exactly as it was before the call". -/
theorem run_forever_already_running_mutates :
    (run_forever 1 app0 sRunning).1 =
      some (Exn.runtimeError "This event loop is already running") ∧
    (run_forever 1 app0 sRunning).2 ≠ sRunning := by
  exact ⟨rfl, by decide⟩

/-- C2 amended: when the loop is closed, `run_forever` raises before any
mutation; when it is already running, or another loop is running, the error is
raised before any scheduler bookkeeping mutation (thread id, hooks,
running-loop flag, tick arming, exit registration), but after the self-reading
callback has been appended to the ready queue and the `app` reference stored. -/
theorem run_forever_error_before_bookkeeping (tid : Nat) (app : App)
    (s : AdapterState) :
    (s.closed = true →
      run_forever tid app s =
        (some (Exn.runtimeError "Event loop is closed"), s)) ∧
    (s.closed = false → is_running s = true →
      run_forever tid app s =
        (some (Exn.runtimeError "This event loop is already running"),
         { s with ready := s.ready ++ [loopSelfReading]
                , app_ref := some app.id, app_is_exiting := app.isExiting })) ∧
    (s.closed = false → is_running s = false → s.running_loop.isSome = true →
      run_forever tid app s =
        (some (Exn.runtimeError
          "Cannot run the event loop while another loop is running"),
         { s with ready := s.ready ++ [loopSelfReading]
                , app_ref := some app.id, app_is_exiting := app.isExiting })) := by
  refine ⟨fun h1 => ?_, fun h1 h2 => ?_, fun h1 h2 h3 => ?_⟩
  · simp [run_forever, call_soon, h1]
  · simp only [is_running] at h2
    obtain ⟨t, ht⟩ := Option.isSome_iff_exists.mp h2
    simp [run_forever, call_soon, is_running, h1, ht]
  · have h2n : s.thread_id = none := by
      cases hth : s.thread_id with
      | none => rfl
      | some t => simp [is_running, hth] at h2
    simp [run_forever, call_soon, is_running, h1, h2n, h3]

/-- C2 witness: the amended statement applied at the concrete already-running
state. -/
theorem run_forever_error_before_bookkeeping_witness :
    run_forever 1 app0 sRunning =
      (some (Exn.runtimeError "This event loop is already running"),
       { sRunning with ready := sRunning.ready ++ [loopSelfReading]
                     , app_ref := some app0.id
                     , app_is_exiting := app0.isExiting }) :=
  (run_forever_error_before_bookkeeping 1 app0 sRunning).2.1 rfl rfl

/-- C3: on every non-exiting invocation of `run_once_recurring`, whatever the
scheduler pass and flushed callback do, the trace arms the next tick before any
inner-loop callback is invoked, and the state handed to a flushed callback
always has at least one tick outstanding. -/
theorem tick_armed_before_inner_flush (ro : SchedPass) (cbi : CbRun)
    (s : AdapterState) (_hx : s.app_is_exiting = false) :
    flushOnlyAfterArm (run_once_recurring ro cbi s).2.2 false = true ∧
    ∀ c a sAt, Ev.invokeCb c a sAt ∈ (run_once_recurring ro cbi s).2.2 →
      0 < sAt.tick_count :=
  ⟨(run_once_trace_ok ro cbi s).1,
   fun c a sAt h => ((run_once_trace_ok ro cbi s).2 c a sAt h).2⟩

/-- C3 witness: the ordering property evaluated on a concrete tick that flushes
a pending request. -/
theorem tick_armed_before_inner_flush_witness :
    flushOnlyAfterArm (run_once_recurring roId cbId sWithReq).2.2 false = true ∧
    0 < sFlushed.tick_count :=
  ⟨(tick_armed_before_inner_flush roId cbId sWithReq rfl).1,
   (tick_armed_before_inner_flush roId cbId sWithReq rfl).2 5 [2] sFlushed
     (by decide)⟩

/-- C4 counterexample: on a tick whose scheduler pass raises, the exception is
swallowed but the next tick is NOT armed: no `enqueueTickEv` is emitted and
`tick_count` is unchanged, refuting "after it returns, a TickHandle for the
next tick exists". -/
theorem failing_pass_leaves_tick_unarmed :
    (run_once_recurring roBoom cbId sPlain).1 = none ∧
    Ev.enqueueTickEv ∉ (run_once_recurring roBoom cbId sPlain).2.2 ∧
    (run_once_recurring roBoom cbId sPlain).2.1.tick_count =
      sPlain.tick_count := by
  decide

/-- C4 amended: when the non-blocking pass raises on a non-exiting tick, the
exception jumps straight to the `except BaseException` handler, so
`run_once_recurring` returns normally with the exception reported, but it does
not arm the next tick: no `enqueueTickEv` appears in the trace. -/
theorem failing_pass_swallowed_no_rearm (ro : SchedPass) (cbi : CbRun)
    (s : AdapterState) (e : Exn) (s1 : AdapterState)
    (hx : s.app_is_exiting = false) (hro : ro s = (some e, s1)) :
    run_once_recurring ro cbi s = (none, s1, [Ev.runOncePass, Ev.caught e]) ∧
    Ev.enqueueTickEv ∉ (run_once_recurring ro cbi s).2.2 := by
  have hT : run_once_recurring_try ro cbi s = (some e, s1, [Ev.runOncePass]) := by
    simp [run_once_recurring_try, hx, hro]
  constructor
  · simp [run_once_recurring, hT, catchesBaseException]
  · simp [run_once_recurring, hT, catchesBaseException]

/-- C4 witness: the amended statement applied to a concrete failing pass. -/
theorem failing_pass_swallowed_no_rearm_witness :
    run_once_recurring roBoom cbId sPlain =
      (none, sPlain, [Ev.runOncePass, Ev.caught (Exn.other 7)]) ∧
    Ev.enqueueTickEv ∉ (run_once_recurring roBoom cbId sPlain).2.2 :=
  failing_pass_swallowed_no_rearm roBoom cbId sPlain (Exn.other 7) sPlain
    rfl rfl

/-- C5: `run_once_recurring` never propagates an exception to its caller: its
propagated-exception component is always `none`, and whenever the `try` body
raised, the result is the body's state with the exception reported to the
logging channel (the `caught` trace event standing for the printed traceback). -/
theorem run_once_never_propagates (ro : SchedPass) (cbi : CbRun)
    (s : AdapterState) :
    (run_once_recurring ro cbi s).1 = none ∧
    ∀ e s1 t1, run_once_recurring_try ro cbi s = (some e, s1, t1) →
      run_once_recurring ro cbi s = (none, s1, t1 ++ [Ev.caught e]) := by
  constructor
  · rcases hT : run_once_recurring_try ro cbi s with ⟨oe, s1, t1⟩
    cases oe with
    | none => simp [run_once_recurring, hT]
    | some e => simp [run_once_recurring, hT, catchesBaseException]
  · intro e s1 t1 hT
    simp [run_once_recurring, hT, catchesBaseException]

/-- C5 witness: a concrete failing pass is swallowed and reported. -/
theorem run_once_never_propagates_witness :
    (run_once_recurring roBoom cbId sPlain).1 = none ∧
    run_once_recurring roBoom cbId sPlain =
      (none, sPlain, [Ev.runOncePass] ++ [Ev.caught (Exn.other 7)]) :=
  ⟨(run_once_never_propagates roBoom cbId sPlain).1,
   (run_once_never_propagates roBoom cbId sPlain).2 (Exn.other 7) sPlain
     [Ev.runOncePass] rfl⟩

/-- C6: `start_inner_loop` fails with the fatal assertion, leaving state
untouched, whenever a request is already outstanding; when none is
outstanding it stores the `(callback, args)` pair and returns without invoking
anything (its body is a pure store). -/
theorem start_inner_loop_contract (c : Nat) (args : List Nat)
    (s : AdapterState) :
    (s.inner_loop ≠ none →
      start_inner_loop c args s = (some Exn.assertionFailed, s)) ∧
    (s.inner_loop = none →
      start_inner_loop c args s =
        (none, { s with inner_loop := some (c, args) })) := by
  constructor
  · intro h
    cases hs : s.inner_loop with
    | none => exact absurd hs h
    | some p => simp [start_inner_loop, hs]
  · intro h
    simp [start_inner_loop, h]

/-- C6 witness: both branches evaluated at concrete states. -/
theorem start_inner_loop_contract_witness :
    start_inner_loop 3 [1] sWithReq = (some Exn.assertionFailed, sWithReq) ∧
    start_inner_loop 3 [1] sPlain =
      (none, { sPlain with inner_loop := some (3, [1]) }) :=
  ⟨(start_inner_loop_contract 3 [1] sWithReq).1 (by decide),
   (start_inner_loop_contract 3 [1] sPlain).2 rfl⟩

/-- C7: starting the adapter on a startable state and then firing the exit
handler restores the process asyncgen hooks to their pre-startup values,
clears the thread-affinity token and the running-loop slot, and leaves the
loop not stopping, i.e. Stopped. -/
theorem application_exit_restores_state (tid : Nat) (app : App)
    (s : AdapterState) (h1 : s.closed = false) (h2 : s.thread_id = none)
    (h3 : s.running_loop = none) :
    (run_forever tid app s).1 = none ∧
    (winforms_application_exit (run_forever tid app s).2).agen_hooks =
      s.agen_hooks ∧
    (winforms_application_exit (run_forever tid app s).2).thread_id = none ∧
    (winforms_application_exit (run_forever tid app s).2).running_loop = none ∧
    (winforms_application_exit (run_forever tid app s).2).stopping = false := by
  simp [run_forever, call_soon, is_running, h1, h2, h3, enqueue_tick,
    winforms_application_exit]

/-- C7 witness: the startup-then-exit round trip on a concrete fresh state. -/
theorem application_exit_restores_state_witness :
    (run_forever 7 app0 sFresh).1 = none ∧
    (winforms_application_exit (run_forever 7 app0 sFresh).2).agen_hooks =
      sFresh.agen_hooks ∧
    (winforms_application_exit (run_forever 7 app0 sFresh).2).thread_id =
      none ∧
    (winforms_application_exit (run_forever 7 app0 sFresh).2).running_loop =
      none ∧
    (winforms_application_exit (run_forever 7 app0 sFresh).2).stopping =
      false :=
  application_exit_restores_state 7 app0 sFresh rfl rfl rfl

/-- C8: the exit handler is idempotent: firing it a second time from any state
it has already produced changes nothing, since it only overwrites fields with
values it computes from `old_agen_hooks`, which it never modifies. -/
theorem application_exit_idempotent (s : AdapterState) :
    winforms_application_exit (winforms_application_exit s) =
      winforms_application_exit s := by
  simp [winforms_application_exit]

/-- C9: whenever `run_once_recurring` invokes a flushed inner-loop callback,
the state handed to the callback has the pending request already cleared, so a
fresh `start_inner_loop` issued by the callback succeeds and stores the new
request; the at-most-one-outstanding invariant is never violated. -/
theorem inner_loop_cleared_before_invoke (ro : SchedPass) (cbi : CbRun)
    (s : AdapterState) (c : Nat) (a : List Nat) (sAt : AdapterState)
    (h : Ev.invokeCb c a sAt ∈ (run_once_recurring ro cbi s).2.2) :
    sAt.inner_loop = none ∧
    ∀ c2 a2, (start_inner_loop c2 a2 sAt).1 = none ∧
      (start_inner_loop c2 a2 sAt).2.inner_loop = some (c2, a2) := by
  have hn := ((run_once_trace_ok ro cbi s).2 c a sAt h).1
  refine ⟨hn, fun c2 a2 => ?_⟩
  simp [start_inner_loop, hn]

/-- C9 witness: the cleared-before-invoke property evaluated on a concrete
flushing tick, with a re-registration by the callback succeeding. -/
theorem inner_loop_cleared_before_invoke_witness :
    sFlushed2.inner_loop = none ∧
    (start_inner_loop 6 [3] sFlushed2).1 = none ∧
    (start_inner_loop 6 [3] sFlushed2).2.inner_loop = some (6, [3]) :=
  ⟨(inner_loop_cleared_before_invoke roId cbId sWithReq2 9 [4] sFlushed2
      (by decide)).1,
   (inner_loop_cleared_before_invoke roId cbId sWithReq2 9 [4] sFlushed2
      (by decide)).2 6 [3]⟩

/-- C10: the handler on line 155 is `except BaseException`: it matches every
exception, and in particular a `KeyboardInterrupt` or `SystemExit` (which are
not `Exception` instances) raised during the tick is reported and swallowed,
never reaching the caller. -/
theorem base_exceptions_swallowed (ro : SchedPass) (cbi : CbRun)
    (s : AdapterState) (e : Exn) (s1 : AdapterState) (t1 : List Ev)
    (_hE : e.isException = false)
    (hT : run_once_recurring_try ro cbi s = (some e, s1, t1)) :
    catchesBaseException e = true ∧
    run_once_recurring ro cbi s = (none, s1, t1 ++ [Ev.caught e]) :=
  ⟨rfl, by simp [run_once_recurring, hT, catchesBaseException]⟩

/-- C10 witness: a `KeyboardInterrupt` raised by the pass is swallowed. -/
theorem base_exceptions_swallowed_witness :
    catchesBaseException Exn.keyboardInterrupt = true ∧
    run_once_recurring roKI cbId sPlain =
      (none, sPlain, [Ev.runOncePass] ++ [Ev.caught Exn.keyboardInterrupt]) :=
  base_exceptions_swallowed roKI cbId sPlain Exn.keyboardInterrupt sPlain
    [Ev.runOncePass] rfl rfl

end Proactor
